import Mathlib

/-!
Shallow embedding of the `debug_iterator` Rust crate (src/lib.rs).

The crate wraps an iterator so that each pulled element is also rendered
to a diagnostic sink (stderr by default, or the `log` facade when the
`logging` feature is enabled) in its `Debug` representation, optionally
in the alternate (pretty) form and optionally behind a caption string.

Modelling choices:
  * A Rust iterator is a state machine: a state type `σ` and a step
    function `σ → Option T × σ` (Rust's `fn next(&mut self) -> Option<Item>`
    both returns the optional item and mutates the state, also on `None`).
  * `std::fmt::Debug` for the item type is a pair of rendering functions,
    one for `\x7b:?\x7d` (compact) and one for `\x7b:#?\x7d` (pretty), since the
    crate treats them as opaque collaborators supplied by the item type.
  * The diagnostic sink is modelled observationally: each call to the
    `_log_this!` macro produces one `Emission` record carrying the
    destination chosen by the build configuration and the formatted text.
  * `Cow` captions are modelled as `String` (the crate never distinguishes
    borrowed from owned captions behaviourally).
-/

/-- The step function of a Rust iterator with state type `σ` and item type
`T`: from a state, an optional item together with the successor state. -/
def IterStep (σ T : Type) : Type := σ → Option T × σ

/-- The `std::fmt::Debug` capability of the item type: a compact rendering
(format `\x7b:?\x7d`) and a pretty multi-line rendering (format `\x7b:#?\x7d`). -/
structure DebugImpl (T : Type) where
  fmt : T → String
  fmtPretty : T → String

/-- The destination of one diagnostic emission: `stderr` for the default
build (`eprintln!`), `logDebug` for the `logging` feature build
(`log::debug!`). -/
inductive SinkDest : Type where
  | stderr : SinkDest
  | logDebug : SinkDest
deriving DecidableEq, Repr

/-- One diagnostic emission: its destination and its formatted text. -/
structure Emission where
  dest : SinkDest
  text : String
deriving DecidableEq, Repr

/-- The `_log_this!` macro of `DebugPrinter::next`: both configuration
branches pass the same `format_args!` text, only the destination differs
(`eprintln!` on the default build, `log::debug!` under `logging`). -/
def logThis (logging : Bool) (text : String) : Emission :=
  if logging then ⟨SinkDest.logDebug, text⟩ else ⟨SinkDest.stderr, text⟩

/-- `pub struct DebugPrinter<'a, T>(T, bool, Option<Cow<'a, str>>)`:
the wrapped source's state, the pretty flag, and the optional caption. -/
structure DebugPrinter (σ : Type) where
  src : σ
  pretty : Bool
  msg : Option String
deriving DecidableEq, Repr

/-- `DebugPrinter::new(x, pretty, msg)`. -/
def DebugPrinter.new (x : σ) (pretty : Bool) (msg : Option String) :
    DebugPrinter σ :=
  ⟨x, pretty, msg⟩

/-- `DebugIterator::debug`: pretty = false, no caption. -/
def DebugIterator.debug (source : σ) : DebugPrinter σ :=
  DebugPrinter.new source false none

/-- `DebugIterator::debug_pretty`: pretty = true, no caption. -/
def DebugIterator.debug_pretty (source : σ) : DebugPrinter σ :=
  DebugPrinter.new source true none

/-- `DebugIterator::debug_prefix`: pretty = false, caption present. -/
def DebugIterator.debug_with_caption (source : σ) (caption : String) :
    DebugPrinter σ :=
  DebugPrinter.new source false (some caption)

/-- `DebugIterator::debug_prefix_pretty`: pretty = true, caption present. -/
def DebugIterator.debug_with_caption_pretty (source : σ) (caption : String) :
    DebugPrinter σ :=
  DebugPrinter.new source true (some caption)

/-- The result of one pull on the adapter: the optional returned item, the
adapter after the pull, and the diagnostic emissions performed during it. -/
structure PullResult (σ T : Type) where
  item : Option T
  printer : DebugPrinter σ
  emissions : List Emission
deriving DecidableEq, Repr

/-- `<DebugPrinter as Iterator>::next`: pull the wrapped source once (its
state advances also when it reports exhaustion, as `self.0.next()?` does);
on exhaustion return `None` with no emission; otherwise format the item by
the four-way match on `(self.1, &self.2)`, emit once through `_log_this!`,
and return the item unchanged. -/
def DebugPrinter.next (logging : Bool) (dbg : DebugImpl T)
    (step : IterStep σ T) (p : DebugPrinter σ) : PullResult σ T :=
  match step p.src with
  | (none, s) => ⟨none, { p with src := s }, []⟩
  | (some x, s) =>
    let text : String :=
      match p.pretty, p.msg with
      | true, some m => m ++ ": " ++ dbg.fmtPretty x
      | false, some m => m ++ ": " ++ dbg.fmt x
      | true, none => dbg.fmtPretty x
      | false, none => dbg.fmt x
    ⟨some x, { p with src := s }, [logThis logging text]⟩

/-- The observable trace of driving the adapter for a number of pulls. -/
structure RunResult (σ T : Type) where
  items : List T
  emissions : List Emission
  printer : DebugPrinter σ
deriving DecidableEq, Repr

/-- Drive the adapter through `n` consecutive pulls, collecting the items
it returns and the emissions it performs, in order. -/
def DebugPrinter.runN (logging : Bool) (dbg : DebugImpl T)
    (step : IterStep σ T) : Nat → DebugPrinter σ → RunResult σ T
  | 0, p => ⟨[], [], p⟩
  | Nat.succ n, p =>
    let r := DebugPrinter.next logging dbg step p
    let rest := DebugPrinter.runN logging dbg step n r.printer
    ⟨r.item.toList ++ rest.items, r.emissions ++ rest.emissions, rest.printer⟩

/-- The step function of an iterator backed by a finite list, the generic
finite (and fused) source sequence: yields the head, then the tail. -/
def listStep : IterStep (List T) T := fun l =>
  match l with
  | [] => (none, [])
  | x :: xs => (some x, xs)

/-! ### Helper lemmas -/

/-- Over a list-backed source, `n` pulls return exactly the first `n`
elements of the remaining source list. -/
theorem DebugPrinter.runN_list_items (logging : Bool) (dbg : DebugImpl T)
    (n : Nat) (p : DebugPrinter (List T)) :
    (DebugPrinter.runN logging dbg listStep n p).items = p.src.take n := by
  induction n generalizing p with
  | zero => simp [DebugPrinter.runN]
  | succ n ih =>
    cases hs : p.src with
    | nil => simp [DebugPrinter.runN, DebugPrinter.next, listStep, hs, ih]
    | cons x xs => simp [DebugPrinter.runN, DebugPrinter.next, listStep, hs, ih]

/-- Over a list-backed source, after `n` pulls the adapter holds the
source list with its first `n` elements dropped. -/
theorem DebugPrinter.runN_list_src (logging : Bool) (dbg : DebugImpl T)
    (n : Nat) (p : DebugPrinter (List T)) :
    (DebugPrinter.runN logging dbg listStep n p).printer.src = p.src.drop n := by
  induction n generalizing p with
  | zero => simp [DebugPrinter.runN]
  | succ n ih =>
    cases hs : p.src with
    | nil => simp [DebugPrinter.runN, DebugPrinter.next, listStep, hs, ih]
    | cons x xs => simp [DebugPrinter.runN, DebugPrinter.next, listStep, hs, ih]

/-- Over any source, every run performs exactly one emission per returned
item: the two observable traces always have equal length. -/
theorem DebugPrinter.runN_emissions_length (logging : Bool) (dbg : DebugImpl T)
    (step : IterStep σ T) (n : Nat) (p : DebugPrinter σ) :
    (DebugPrinter.runN logging dbg step n p).emissions.length =
      (DebugPrinter.runN logging dbg step n p).items.length := by
  induction n generalizing p with
  | zero => simp [DebugPrinter.runN]
  | succ n ih =>
    cases hs : step p.src with
    | mk o s =>
      cases o <;> simp [DebugPrinter.runN, DebugPrinter.next, hs, ih]

/-- Pulling never changes the pretty flag. -/
theorem DebugPrinter.runN_pretty (logging : Bool) (dbg : DebugImpl T)
    (step : IterStep σ T) (n : Nat) (p : DebugPrinter σ) :
    (DebugPrinter.runN logging dbg step n p).printer.pretty = p.pretty := by
  induction n generalizing p with
  | zero => simp [DebugPrinter.runN]
  | succ n ih =>
    cases hs : step p.src with
    | mk o s =>
      cases o <;> simp [DebugPrinter.runN, DebugPrinter.next, hs, ih]

/-- Pulling never changes the caption. -/
theorem DebugPrinter.runN_msg (logging : Bool) (dbg : DebugImpl T)
    (step : IterStep σ T) (n : Nat) (p : DebugPrinter σ) :
    (DebugPrinter.runN logging dbg step n p).printer.msg = p.msg := by
  induction n generalizing p with
  | zero => simp [DebugPrinter.runN]
  | succ n ih =>
    cases hs : step p.src with
    | mk o s =>
      cases o <;> simp [DebugPrinter.runN, DebugPrinter.next, hs, ih]

/-- The build configuration affects neither the returned items, nor the
formatted texts, nor the adapter state — only the emission destinations. -/
theorem DebugPrinter.runN_logging_obs (dbg : DebugImpl T)
    (step : IterStep σ T) (n : Nat) (p : DebugPrinter σ) :
    (DebugPrinter.runN true dbg step n p).items =
        (DebugPrinter.runN false dbg step n p).items
    ∧ (DebugPrinter.runN true dbg step n p).emissions.map Emission.text =
        (DebugPrinter.runN false dbg step n p).emissions.map Emission.text
    ∧ (DebugPrinter.runN true dbg step n p).printer =
        (DebugPrinter.runN false dbg step n p).printer := by
  induction n generalizing p with
  | zero => simp [DebugPrinter.runN]
  | succ n ih =>
    cases hs : step p.src with
    | mk o s =>
      cases o <;>
        simpa [DebugPrinter.runN, DebugPrinter.next, logThis, hs] using ih _

/-- Every emission of a run goes to the single sink selected by the build
configuration. -/
theorem DebugPrinter.runN_dest (logging : Bool) (dbg : DebugImpl T)
    (step : IterStep σ T) (n : Nat) (p : DebugPrinter σ) :
    (DebugPrinter.runN logging dbg step n p).emissions.map Emission.dest =
      List.replicate (DebugPrinter.runN logging dbg step n p).emissions.length
        (if logging then SinkDest.logDebug else SinkDest.stderr) := by
  induction n generalizing p with
  | zero => simp [DebugPrinter.runN]
  | succ n ih =>
    cases hs : step p.src with
    | mk o s =>
      cases o <;> cases logging <;>
        simp [DebugPrinter.runN, DebugPrinter.next, logThis, hs, ih,
          List.replicate_succ]

/-! ### Concrete instances used by witnesses and counterexamples -/

/-- A concrete Debug implementation for `Nat`: the compact rendering is the
decimal numeral, the pretty rendering is visibly different from it. -/
def natDbg : DebugImpl Nat :=
  ⟨fun k => toString k, fun k => "#" ++ toString k⟩

/-- A concrete non-fused source over state `Nat`: it reports exhaustion in
state 0, then yields 42 from state 1, then is exhausted for good. Rust's
`Iterator` contract permits this unless the iterator is fused. -/
def nonFusedStep : IterStep Nat Nat := fun s =>
  match s with
  | 0 => (none, 1)
  | 1 => (some 42, 2)
  | _ => (none, s)

/-! ### Claims -/

/-- C1: Passthrough identity — for every finite source sequence `S` and
every policy, the items returned by the adapter are exactly `S`: pulling
`S.length` times returns `S` itself, and pulling any `n` times returns the
first `n` elements of `S` unmodified, in order. -/
theorem C1_passthrough_identity (logging : Bool) (dbg : DebugImpl T)
    (S : List T) (b : Bool) (c : Option String) :
    (DebugPrinter.runN logging dbg listStep S.length
        (DebugPrinter.new S b c)).items = S
    ∧ ∀ n, (DebugPrinter.runN logging dbg listStep n
        (DebugPrinter.new S b c)).items = S.take n := by
  constructor
  · simpa [DebugPrinter.new] using
      DebugPrinter.runN_list_items logging dbg S.length (DebugPrinter.new S b c)
  · intro n
    simpa [DebugPrinter.new] using
      DebugPrinter.runN_list_items logging dbg n (DebugPrinter.new S b c)

/-- C2: Format selection — on every pull that yields an element `x`, the
single emitted text is the caption followed by the delimiter ": " when a
caption is configured (and nothing otherwise), followed by the pretty
rendering of `x` when pretty is set and the compact rendering otherwise. -/
theorem C2_format_selection (logging : Bool) (dbg : DebugImpl T)
    (step : IterStep σ T) (p : DebugPrinter σ) (x : T) (s : σ)
    (h : step p.src = (some x, s)) :
    (DebugPrinter.next logging dbg step p).emissions.map Emission.text =
      [(match p.msg with
        | some caption => caption ++ ": "
        | none => "") ++
       (if p.pretty then dbg.fmtPretty x else dbg.fmt x)] := by
  cases hm : p.msg <;> cases hp : p.pretty <;> cases logging <;>
    simp [DebugPrinter.next, logThis, h, hm, hp]

/-- Witness for C2 at a concrete input: caption "cap", pretty mode, over
the singleton source `[5]`, emitting `cap: #5`. -/
theorem C2_format_selection_witness :
    (DebugPrinter.next false natDbg listStep
        (DebugPrinter.new [5] true (some "cap"))).emissions.map Emission.text =
      ["cap: #5"] := by
  have h := C2_format_selection false natDbg listStep
    (DebugPrinter.new [5] true (some "cap")) 5 [] rfl
  simpa [natDbg] using h

/-- C3: On a pull in which the source reports exhaustion, the adapter
reports exhaustion and performs no emission. -/
theorem C3_exhaustion_propagates (logging : Bool) (dbg : DebugImpl T)
    (step : IterStep σ T) (p : DebugPrinter σ) (s : σ)
    (h : step p.src = (none, s)) :
    (DebugPrinter.next logging dbg step p).item = none
    ∧ (DebugPrinter.next logging dbg step p).emissions = [] := by
  simp [DebugPrinter.next, h]

/-- Witness for C3 at a concrete input: the empty list source. -/
theorem C3_exhaustion_propagates_witness :
    (DebugPrinter.next false natDbg listStep
        (DebugPrinter.new ([] : List Nat) false none)).item = none
    ∧ (DebugPrinter.next false natDbg listStep
        (DebugPrinter.new ([] : List Nat) false none)).emissions = [] :=
  C3_exhaustion_propagates false natDbg listStep
    (DebugPrinter.new ([] : List Nat) false none) [] rfl

/-- Counterexample to C4 as stated: the adapter has no terminal state and
re-pulls the wrapped source on every pull. Over the non-fused source, the
first pull reports exhaustion, yet the second pull returns an element and
performs an emission — the adapter transitions back to yielding. -/
theorem C4_counterexample :
    (DebugPrinter.next false natDbg nonFusedStep
        (DebugPrinter.new 0 false none)).item = none
    ∧ (DebugPrinter.next false natDbg nonFusedStep
        (DebugPrinter.next false natDbg nonFusedStep
          (DebugPrinter.new 0 false none)).printer).item = some 42
    ∧ (DebugPrinter.next false natDbg nonFusedStep
        (DebugPrinter.next false natDbg nonFusedStep
          (DebugPrinter.new 0 false none)).printer).emissions ≠ [] := by
  decide

/-- C4 amended: the adapter re-pulls the wrapped source on every pull, so
terminality holds exactly when the source keeps reporting exhaustion. Over
a fused (list-backed) source that has signaled exhaustion, every number of
subsequent pulls returns no elements and performs zero emissions. -/
theorem C4_terminal_exhaustion_fused (logging : Bool) (dbg : DebugImpl T)
    (p : DebugPrinter (List T)) (h : p.src = []) (n : Nat) :
    (DebugPrinter.runN logging dbg listStep n p).items = []
    ∧ (DebugPrinter.runN logging dbg listStep n p).emissions = [] := by
  have hitems : (DebugPrinter.runN logging dbg listStep n p).items = [] := by
    simpa [h] using DebugPrinter.runN_list_items logging dbg n p
  refine ⟨hitems, ?_⟩
  have hlen := DebugPrinter.runN_emissions_length logging dbg listStep n p
  rw [hitems] at hlen
  simpa using List.length_eq_zero.mp (by simpa using hlen)

/-- Witness for the amended C4 at a concrete input: three pulls on an
exhausted list source. -/
theorem C4_terminal_exhaustion_fused_witness :
    (DebugPrinter.runN false natDbg listStep 3
        (DebugPrinter.new ([] : List Nat) false none)).items = []
    ∧ (DebugPrinter.runN false natDbg listStep 3
        (DebugPrinter.new ([] : List Nat) false none)).emissions = [] :=
  C4_terminal_exhaustion_fused false natDbg
    (DebugPrinter.new ([] : List Nat) false none) rfl 3

/-- C5: Emission-count invariant — each pull performs at most one emission
(and consumes at most one element, a single step of the source); over any
run the number of emissions equals the number of items produced; and over
a list source holding at least `n` elements, `n` pulls perform exactly `n`
emissions. -/
theorem C5_emission_count (logging : Bool) (dbg : DebugImpl T) :
    (∀ (σ : Type) (step : IterStep σ T) (p : DebugPrinter σ),
        (DebugPrinter.next logging dbg step p).emissions.length ≤ 1)
    ∧ (∀ (σ : Type) (step : IterStep σ T) (p : DebugPrinter σ) (n : Nat),
        (DebugPrinter.runN logging dbg step n p).emissions.length =
          (DebugPrinter.runN logging dbg step n p).items.length)
    ∧ (∀ (S : List T) (b : Bool) (c : Option String) (n : Nat),
        n ≤ S.length →
        (DebugPrinter.runN logging dbg listStep n
            (DebugPrinter.new S b c)).emissions.length = n) := by
  refine ⟨?_, ?_, ?_⟩
  · intro σ step p
    cases hs : step p.src with
    | mk o s => cases o <;> simp [DebugPrinter.next, hs]
  · intro σ step p n
    exact DebugPrinter.runN_emissions_length logging dbg step n p
  · intro S b c n hn
    have h1 := DebugPrinter.runN_emissions_length logging dbg listStep n
      (DebugPrinter.new S b c)
    have h2 := DebugPrinter.runN_list_items logging dbg n (DebugPrinter.new S b c)
    rw [h1, h2]
    simpa [DebugPrinter.new] using Nat.min_eq_left hn

/-- Witness for C5 at a concrete input: two pulls on a three-element
source perform exactly two emissions. -/
theorem C5_emission_count_witness :
    (DebugPrinter.runN false natDbg listStep 2
        (DebugPrinter.new [1, 2, 3] false none)).emissions.length = 2 :=
  (C5_emission_count false natDbg).2.2 [1, 2, 3] false none 2 (by decide)

/-- C6: Constructor-to-policy mapping — each of the four construction
entry points wraps the given source unchanged with exactly the stated
policy: `debug` is compact with no caption, `debug_pretty` is pretty with
no caption, `debug_prefix` (here `debug_with_caption`) is compact with the
caption, and `debug_prefix_pretty` (here `debug_with_caption_pretty`) is
pretty with the caption. -/
theorem C6_constructor_policy (source : σ) (caption : String) :
    ((DebugIterator.debug source).src = source
      ∧ (DebugIterator.debug source).pretty = false
      ∧ (DebugIterator.debug source).msg = none)
    ∧ ((DebugIterator.debug_pretty source).src = source
      ∧ (DebugIterator.debug_pretty source).pretty = true
      ∧ (DebugIterator.debug_pretty source).msg = none)
    ∧ ((DebugIterator.debug_with_caption source caption).src = source
      ∧ (DebugIterator.debug_with_caption source caption).pretty = false
      ∧ (DebugIterator.debug_with_caption source caption).msg = some caption)
    ∧ ((DebugIterator.debug_with_caption_pretty source caption).src = source
      ∧ (DebugIterator.debug_with_caption_pretty source caption).pretty = true
      ∧ (DebugIterator.debug_with_caption_pretty source caption).msg
          = some caption) :=
  ⟨⟨rfl, rfl, rfl⟩, ⟨rfl, rfl, rfl⟩, ⟨rfl, rfl, rfl⟩, ⟨rfl, rfl, rfl⟩⟩

/-- C7: Policy immutability — a single pull, and any number of pulls,
leave the pretty flag and the caption exactly as fixed at construction. -/
theorem C7_policy_immutable (logging : Bool) (dbg : DebugImpl T)
    (step : IterStep σ T) (p : DebugPrinter σ) :
    ((DebugPrinter.next logging dbg step p).printer.pretty = p.pretty
      ∧ (DebugPrinter.next logging dbg step p).printer.msg = p.msg)
    ∧ ∀ n, (DebugPrinter.runN logging dbg step n p).printer.pretty = p.pretty
      ∧ (DebugPrinter.runN logging dbg step n p).printer.msg = p.msg := by
  refine ⟨?_, fun n => ⟨DebugPrinter.runN_pretty logging dbg step n p,
    DebugPrinter.runN_msg logging dbg step n p⟩⟩
  cases hs : step p.src with
  | mk o s => cases o <;> simp [DebugPrinter.next, hs]

/-- C8: Sink-selection equivalence — over any source, policy and number of
pulls, the two build configurations return the same items and emit the
same formatted texts, and each configuration sends every emission to its
single active sink (the log facade under `logging`, stderr otherwise). -/
theorem C8_sink_selection (dbg : DebugImpl T) (step : IterStep σ T)
    (p : DebugPrinter σ) (n : Nat) :
    (DebugPrinter.runN true dbg step n p).items =
        (DebugPrinter.runN false dbg step n p).items
    ∧ (DebugPrinter.runN true dbg step n p).emissions.map Emission.text =
        (DebugPrinter.runN false dbg step n p).emissions.map Emission.text
    ∧ ∀ logging,
        (DebugPrinter.runN logging dbg step n p).emissions.map Emission.dest =
          List.replicate
            (DebugPrinter.runN logging dbg step n p).emissions.length
            (if logging then SinkDest.logDebug else SinkDest.stderr) :=
  ⟨(DebugPrinter.runN_logging_obs dbg step n p).1,
   (DebugPrinter.runN_logging_obs dbg step n p).2.1,
   fun logging => DebugPrinter.runN_dest logging dbg step n p⟩

/-- C9: Deterministic wrapping — two independently constructed adapters
with the same policy, driven through independent runs of equal length over
equal source contents, return identical item sequences and perform
identical emissions. -/
theorem C9_deterministic_wrapping (logging : Bool) (dbg : DebugImpl T)
    (S1 S2 : List T) (h : S1 = S2) (b : Bool) (c : Option String) (n : Nat) :
    (DebugPrinter.runN logging dbg listStep n (DebugPrinter.new S1 b c)).items
      = (DebugPrinter.runN logging dbg listStep n
          (DebugPrinter.new S2 b c)).items
    ∧ (DebugPrinter.runN logging dbg listStep n
          (DebugPrinter.new S1 b c)).emissions
      = (DebugPrinter.runN logging dbg listStep n
          (DebugPrinter.new S2 b c)).emissions := by
  subst h
  exact ⟨rfl, rfl⟩

/-- Witness for C9 at a concrete input: two adapters over equal two-element
sources. -/
theorem C9_deterministic_wrapping_witness :
    (DebugPrinter.runN false natDbg listStep 2
        (DebugPrinter.new [1, 2] false none)).items
      = (DebugPrinter.runN false natDbg listStep 2
          (DebugPrinter.new [1, 2] false none)).items
    ∧ (DebugPrinter.runN false natDbg listStep 2
          (DebugPrinter.new [1, 2] false none)).emissions
      = (DebugPrinter.runN false natDbg listStep 2
          (DebugPrinter.new [1, 2] false none)).emissions :=
  C9_deterministic_wrapping false natDbg [1, 2] [1, 2] rfl false none 2

/-- C10: Construction is side-effect-free and lazy — each of the four
construction entry points stores the source untouched (no element is
consumed), and a run of zero pulls returns no items, performs no
emissions, and leaves the adapter unchanged: all consumption and all
emissions happen only inside pulls. -/
theorem C10_construction_lazy (source : σ) (caption : String)
    (logging : Bool) (dbg : DebugImpl T) (step : IterStep σ T)
    (q : DebugPrinter σ) :
    (DebugIterator.debug source).src = source
    ∧ (DebugIterator.debug_pretty source).src = source
    ∧ (DebugIterator.debug_with_caption source caption).src = source
    ∧ (DebugIterator.debug_with_caption_pretty source caption).src = source
    ∧ DebugPrinter.runN logging dbg step 0 q = ⟨[], [], q⟩ :=
  ⟨rfl, rfl, rfl, rfl, rfl⟩
